import Mathlib

/-!
Verification of the mpool user-space client library specification against
its source.  The repository's src/ tree holds the public API header
(include/mpool/mpool.h), the mpool_params_init implementation, a CMake
fragment and a smoke-test driver; the bodies of the object managers (mblock,
mlog, MDC, mcache, error reporter) are not under src/, so those parts are
modelled from the specification's own words, as flagged on each definition.
-/

namespace Mpool

/-- Error kinds of the library's failure taxonomy (spec section 7). -/
inductive MpErr where
  | invalidArg
  | notFound
  | alreadyExists
  | noSpace
  | busy
  | overflowErr
  | outOfRange
  | corrupt
  | io
  | invalidState
deriving DecidableEq, Repr

/-! ## Error reporter (merr packing)

The 64-bit error value: zero is success; a failure packs the backend errno,
the source line, and a source-file tag into disjoint bit fields. -/

/-- Modelled from the spec: the merr packing implementation is not in src/;
section 4.6 says the reporter "packs (kind, origin, backend-errno) into a
64-bit value" with "zero encodes success".  Field widths: errno in bits
0..15, line in bits 16..31, file tag in bits 32..63, so the value fits in
64 bits. -/
def merr_pack (file line errno : Nat) : Nat :=
  (file % 2 ^ 32) * 2 ^ 32 + (line % 2 ^ 16) * 2 ^ 16 + errno % 2 ^ 16

/-- Modelled from the spec: extractor for the backend errno
(mpool_errno in include/mpool/mpool.h line 44; body not in src/). -/
def mpool_errno (err : Nat) : Nat := err % 2 ^ 16

/-- Modelled from the spec: extractor for the packed source line. -/
def merr_line (err : Nat) : Nat := err / 2 ^ 16 % 2 ^ 16

/-- Modelled from the spec: extractor for the packed source-file tag. -/
def merr_file (err : Nat) : Nat := err / 2 ^ 32

/-- Modelled from the spec: mpool_strerror (mpool.h line 37) renders the
errno description of an error value. -/
def mpool_strerror (err : Nat) : String :=
  "errno " ++ toString (mpool_errno err)

/-- Modelled from the spec: mpool_strinfo (mpool.h line 42) renders file,
line and errno from an error value. -/
def mpool_strinfo (err : Nat) : String :=
  "src " ++ toString (merr_file err) ++ " line " ++ toString (merr_line err)
    ++ " errno " ++ toString (mpool_errno err)

/-! ## Pool open modes (exclusive versus shared) -/

/-- Modelled from the spec: the open-conflict bookkeeping of a pool.  The
pool tracks how many shared opens are live and whether an exclusive open is
live (mpool.h lines 162..167, section 5 of the spec). -/
structure PoolOpenState where
  sharedCount : Nat
  exclOpen : Bool
deriving DecidableEq, Repr

/-- Modelled from the spec: mpool_open (mpool.h lines 155..175; body not in
src/).  "If the O_EXCL flag is given on first open then all subsequent calls
to mpool_open() will fail with -EBUSY.  Similarly, if the mpool is open in
shared mode then specifying the O_EXCL flag will fail with -EBUSY." -/
def mpool_open (excl : Bool) (st : PoolOpenState) :
    Except MpErr Unit × PoolOpenState :=
  if st.exclOpen = true then (Except.error MpErr.busy, st)
  else if excl then
    if st.sharedCount = 0 then
      (Except.ok (), { st with exclOpen := true })
    else (Except.error MpErr.busy, st)
  else (Except.ok (), { st with sharedCount := st.sharedCount + 1 })

/-! ## Mblock manager -/

/-- Lifecycle states of an mblock (spec section 3 data model). -/
inductive MblockState where
  | allocated
  | committed
  | aborted
  | deleted
deriving DecidableEq, Repr

/-- The system page size used by the read alignment check. -/
def PAGE_SIZE : Nat := 4096

/-- Modelled from the spec: the mblock descriptor (spec section 3): state,
write offset, logical content bytes, backend extent size, and the backend's
optimal write alignment. -/
structure Mblock where
  st : MblockState
  wlen : Nat
  content : List Nat
  extent : Nat
  align : Nat
deriving DecidableEq, Repr

/-- Modelled from the spec: mpool_mblock_alloc (mpool.h lines 843..862; body
not in src/) reserves a backend extent and the state becomes allocated. -/
def mpool_mblock_alloc (extent align : Nat) : Mblock :=
  { st := MblockState.allocated, wlen := 0, content := [], extent := extent,
    align := align }

/-- Modelled from the spec: mpool_mblock_write (mpool.h lines 984..1001; body
not in src/).  "Mblock writes are all or nothing.  Either all data is written
to media, or no data is written to media."  Requires the allocated state,
alignment of the data length to the optimal write alignment, and room in the
extent; the Bool argument stands for the backend I/O outcome. -/
def mpool_mblock_write (ok : Bool) (mb : Mblock) (data : List Nat) :
    Except MpErr Unit × Mblock :=
  if mb.st = MblockState.allocated then
    if data.length % mb.align = 0 then
      if mb.wlen + data.length ≤ mb.extent then
        if ok then
          (Except.ok (),
            { mb with wlen := mb.wlen + data.length,
                      content := mb.content ++ data })
        else (Except.error MpErr.io, mb)
      else (Except.error MpErr.noSpace, mb)
    else (Except.error MpErr.invalidArg, mb)
  else (Except.error MpErr.invalidState, mb)

/-- Modelled from the spec: mpool_mblock_commit (mpool.h lines 896..908; body
not in src/) transitions allocated to committed and seals the content. -/
def mpool_mblock_commit (mb : Mblock) : Except MpErr Unit × Mblock :=
  if mb.st = MblockState.allocated then
    (Except.ok (), { mb with st := MblockState.committed })
  else (Except.error MpErr.invalidState, mb)

/-- Modelled from the spec: mpool_mblock_read (mpool.h lines 1045..1063; body
not in src/) reads from a committed mblock at a page-aligned offset and may
span to the end of the written bytes. -/
def mpool_mblock_read (mb : Mblock) (offset buflen : Nat) :
    Except MpErr (List Nat) :=
  if mb.st = MblockState.committed then
    if offset % PAGE_SIZE = 0 then
      if offset ≤ mb.wlen then
        Except.ok ((mb.content.drop offset).take buflen)
      else Except.error MpErr.outOfRange
    else Except.error MpErr.invalidArg
  else Except.error MpErr.invalidState

/-! ## Mlog and MDC records -/

/-- One framed mlog record as the MDC engine sees it: a user record carrying
its payload bytes, or one of the two reserved compaction markers,
distinguished by a type tag in the framing (spec section 4.4 Markers). -/
inductive MdcRec where
  | user (data : List Nat)
  | cstartMark
  | cendMark
deriving DecidableEq, Repr

/-- An mlog as the MDC engine sees it: the framed record list and the
generation counter (spec section 3 data model). -/
structure Mlog where
  recs : List MdcRec
  gen : Nat
deriving DecidableEq, Repr

/-- Modelled from the spec: mpool_mlog_erase (mpool.h lines 601..615; body
not in src/).  "Erase(min-gen) discards all records; the new generation is
max(current+1, min-gen)." -/
def mpool_mlog_erase (m : Mlog) (mingen : Nat) : Mlog :=
  { recs := [], gen := max (m.gen + 1) mingen }

/-! ## Mlog and MDC read cursors -/

/-- Result of a read-next call: the record payload on success, overflow when
the caller's buffer is shorter than the record, or end of stream. -/
inductive ReadResult where
  | ok (data : List Nat)
  | overflowRes
  | eos
deriving DecidableEq, Repr

/-- Modelled from the spec: mpool_mlog_read_data_next (mpool.h lines
509..528; body not in src/).  The cursor is the list of records not yet
consumed; on a short buffer it returns overflow together with the required
length and does not advance. -/
def mpool_mlog_read_data_next (rem : List (List Nat)) (buflen : Nat) :
    ReadResult × Nat × List (List Nat) :=
  match rem with
  | [] => (ReadResult.eos, 0, [])
  | r :: rest =>
    if r.length ≤ buflen then (ReadResult.ok r, r.length, rest)
    else (ReadResult.overflowRes, r.length, r :: rest)

/-- Modelled from the spec: mpool_mdc_read (mpool.h lines 771..789; body not
in src/).  Returns the next user record, transparently skipping compaction
markers; overflow semantics identical to the mlog read. -/
def mpool_mdc_read (rem : List MdcRec) (buflen : Nat) :
    ReadResult × Nat × List MdcRec :=
  match rem with
  | [] => (ReadResult.eos, 0, [])
  | MdcRec.user d :: rest =>
    if d.length ≤ buflen then (ReadResult.ok d, d.length, rest)
    else (ReadResult.overflowRes, d.length, MdcRec.user d :: rest)
  | MdcRec.cstartMark :: rest => mpool_mdc_read rest buflen
  | MdcRec.cendMark :: rest => mpool_mdc_read rest buflen

/-- The payload of the first user record at or after the cursor, skipping
markers; none when the stream is exhausted. -/
def firstUserRec : List MdcRec → Option (List Nat)
  | [] => none
  | MdcRec.user d :: _ => some d
  | _ :: rest => firstUserRec rest

/-! ## MDC pair commit -/

/-- Lifecycle state of one mlog of an MDC pair before the pair is opened. -/
inductive MlogLifecycle where
  | allocated
  | committed
  | aborted
deriving DecidableEq, Repr

/-- The lifecycle states of the two mlogs backing one MDC. -/
structure MdcPairLifecycle where
  l1 : MlogLifecycle
  l2 : MlogLifecycle
deriving DecidableEq, Repr

/-- Modelled from the spec: mpool_mdc_commit (mpool.h lines 688..699; body
not in src/).  "Commit(id1, id2) commits both mlogs atomically from the
caller's point of view: if the second commit fails, the first is undone
(abort)."  The two Bool arguments stand for the backend outcomes of the two
underlying mlog commits. -/
def mpool_mdc_commit (ok1 ok2 : Bool) (p : MdcPairLifecycle) :
    Bool × MdcPairLifecycle :=
  if p.l1 = MlogLifecycle.allocated ∧ p.l2 = MlogLifecycle.allocated then
    if ok1 then
      if ok2 then
        (true, { l1 := MlogLifecycle.committed, l2 := MlogLifecycle.committed })
      else
        (false, { l1 := MlogLifecycle.aborted, l2 := MlogLifecycle.allocated })
    else (false, p)
  else (false, p)

/-! ## MDC record stream and recovery

The record stream an open MDC delivers: Rewind positions the cursor after
the most recent compaction-start marker (or at record 0 when none exists)
and Read returns user records, skipping markers. -/

/-- Accumulator pass over a framed record list: user payloads are collected,
a compaction-start marker resets the collection, a compaction-end marker is
skipped (spec sections 4.4 Rewind and Read). -/
def mdcStreamGo : List (List Nat) → List MdcRec → List (List Nat)
  | acc, [] => acc
  | acc, MdcRec.user d :: rest => mdcStreamGo (acc ++ [d]) rest
  | _, MdcRec.cstartMark :: rest => mdcStreamGo [] rest
  | acc, MdcRec.cendMark :: rest => mdcStreamGo acc rest

/-- The user-record stream of a framed record list, as Rewind plus repeated
Read delivers it. -/
def mdcStream (l : List MdcRec) : List (List Nat) := mdcStreamGo [] l

/-- Whether a framed record is a user record. -/
def isUserRec : MdcRec → Bool
  | MdcRec.user _ => true
  | _ => false

/-- Whether a record list is user records terminated by exactly one
compaction-end marker (the body that follows a compaction-start marker in a
fully compacted mlog). -/
def compactedBody : List MdcRec → Bool
  | [MdcRec.cendMark] => true
  | MdcRec.user _ :: rest => compactedBody rest
  | _ => false

/-- Modelled from the spec: validity scan of a recovery candidate (spec
section 4.4 recovery step 3).  The candidate is valid iff it (a) is empty,
or (b) contains a compaction-start marker followed by records and a
terminating compaction-end marker, or (c) contains records with no
compaction markers at all, the last only when the generations are equal. -/
def validCandidate (l : List MdcRec) (gensEqual : Bool) : Bool :=
  match l with
  | [] => true
  | MdcRec.cstartMark :: rest => compactedBody rest
  | _ => gensEqual && l.all isUserRec

/-- The two mlogs an MDC is opened from. -/
structure MDCPair where
  m1 : Mlog
  m2 : Mlog
deriving DecidableEq, Repr

/-- Outcome of MDC open recovery: the user-record stream the authoritative
mlog delivers, or the corrupt invariant violation. -/
inductive OpenResult where
  | ok (stream : List (List Nat))
  | corrupt
deriving DecidableEq, Repr

/-- Modelled from the spec: the recovery algorithm mpool_mdc_open runs
(mpool.h lines 727..742; body not in src/; spec section 4.4): the mlog with
the strictly greater generation is the candidate; a valid candidate is
authoritative, otherwise the other mlog is; on a generation tie the valid
non-empty mlog wins, both valid non-empty is corrupt, and neither (the
fresh pair) reads as the empty stream. -/
def mdc_recover (p : MDCPair) : OpenResult :=
  if p.m2.gen < p.m1.gen then
    if validCandidate p.m1.recs false = true then
      OpenResult.ok (mdcStream p.m1.recs)
    else OpenResult.ok (mdcStream p.m2.recs)
  else if p.m1.gen < p.m2.gen then
    if validCandidate p.m2.recs false = true then
      OpenResult.ok (mdcStream p.m2.recs)
    else OpenResult.ok (mdcStream p.m1.recs)
  else
    if (validCandidate p.m1.recs true && !p.m1.recs.isEmpty) = true then
      if (validCandidate p.m2.recs true && !p.m2.recs.isEmpty) = true then
        OpenResult.corrupt
      else OpenResult.ok (mdcStream p.m1.recs)
    else if (validCandidate p.m2.recs true && !p.m2.recs.isEmpty) = true then
      OpenResult.ok (mdcStream p.m2.recs)
    else OpenResult.ok []

/-! ## MDC compaction crash states

mpool_mdc_cstart (mpool.h lines 805..816) swaps the active and standby
mlogs, erases the new active with a floor of the old active generation plus
one, and appends a compaction-start marker; the caller then appends the
rewritten records; mpool_mdc_cend (mpool.h lines 818..827) appends a
compaction-end marker.  A crash may hit between any two of these durable
steps; the states below enumerate the standby mlog's content at every such
point, paired with the untouched old active in either slot order. -/

/-- Modelled from the spec: the standby right after the erase step of
Cstart, before the start marker is durable. -/
def mdcCstartErased (A S : Mlog) : Mlog := mpool_mlog_erase S (A.gen + 1)

/-- Modelled from the spec: the standby after the start marker and the
first k rewritten records are durable, before the end marker. -/
def mdcMidLog (A : Mlog) (newRecs : List (List Nat)) (k : Nat) : Mlog :=
  { recs := MdcRec.cstartMark :: (newRecs.take k).map MdcRec.user,
    gen := A.gen + 1 }

/-- Modelled from the spec: the standby once the compaction-end marker of
Cend is durable. -/
def mdcFinalLog (A : Mlog) (newRecs : List (List Nat)) : Mlog :=
  { recs := MdcRec.cstartMark :: (newRecs.map MdcRec.user ++ [MdcRec.cendMark]),
    gen := A.gen + 1 }

/-- Every durable content the compaction standby can have when a crash hits
between the Cstart call and the completion of Cend: untouched, erased,
marker plus a prefix of the rewritten records, or fully terminated. -/
def mdcCrashLogs (A S : Mlog) (newRecs : List (List Nat)) : List Mlog :=
  S :: mdcCstartErased A S ::
    ((List.range (newRecs.length + 1)).map (mdcMidLog A newRecs)
      ++ [mdcFinalLog A newRecs])

/-- Every mlog pair the next open can find after such a crash: each crash
log paired with the untouched old active, in either slot order. -/
def mdcCrashStates (A S : Mlog) (newRecs : List (List Nat)) : List MDCPair :=
  (mdcCrashLogs A S newRecs).flatMap
    (fun y => [{ m1 := A, m2 := y }, { m1 := y, m2 := A }])

/-! ## mpool_params_init -/

/-- Modelled from the spec: the distinguished invalid sentinels of
mpool_ioctl.h, which is not in src/; section 6 of the spec gives each
configuration value "a distinguished invalid sentinel meaning leave
default". -/
def MPOOL_UID_INVALID : Nat := 2 ^ 32 - 1

/-- Modelled from the spec: invalid-GID sentinel of mpool_ioctl.h. -/
def MPOOL_GID_INVALID : Nat := 2 ^ 32 - 1

/-- Modelled from the spec: invalid-mode sentinel of mpool_ioctl.h. -/
def MPOOL_MODE_INVALID : Nat := 2 ^ 32 - 1

/-- Modelled from the spec: invalid spare-ratio sentinel of mpool_ioctl.h. -/
def MPOOL_SPARES_INVALID : Nat := 2 ^ 8 - 1

/-- Modelled from the spec: invalid media-class sentinel of mpool_ioctl.h. -/
def MPOOL_MCLASS_INVALID : Nat := 2 ^ 8 - 1

/-- Modelled from the spec: invalid read-ahead-pages sentinel of
mpool_ioctl.h. -/
def MPOOL_RA_PAGES_INVALID : Nat := 2 ^ 32 - 1

/-- Modelled from the spec: invalid-label sentinel string of
mpool_ioctl.h. -/
def MPOOL_LABEL_INVALID : String := "invalid"

/-- Modelled from the spec: struct mpool_params of mpool_ioctl.h, which is
not in src/.  The configuration values recognized at init (spec section 6)
plus representative further fields the structure carries and memset
zero-fills. -/
structure mpool_params where
  mp_poolid : Nat
  mp_name : String
  mp_uid : Nat
  mp_gid : Nat
  mp_mode : Nat
  mp_stat : Nat
  mp_mdc0cap : Nat
  mp_mdcncap : Nat
  mp_mdcnum : Nat
  mp_spare_cap : Nat
  mp_spare_stg : Nat
  mp_ra_pages_max : Nat
  mp_vma_size_max : Nat
  mp_mclassp : Nat
  mp_label : String
  mp_rsvd : Nat
deriving DecidableEq, Repr

/-- The structure as memset(params, 0, sizeof(*params)) leaves it: every
numeric field zero, every string field empty. -/
def zeroed_mpool_params : mpool_params :=
  { mp_poolid := 0, mp_name := "", mp_uid := 0, mp_gid := 0, mp_mode := 0,
    mp_stat := 0, mp_mdc0cap := 0, mp_mdcncap := 0, mp_mdcnum := 0,
    mp_spare_cap := 0, mp_spare_stg := 0, mp_ra_pages_max := 0,
    mp_vma_size_max := 0, mp_mclassp := 0, mp_label := "", mp_rsvd := 0 }

/-- mpool_params_init, embedded from src/unnamed/part_001: memset the whole
structure to zero, then assign the sentinels and the explicit zero MDC
capacities and count, and strcpy the invalid label.  The input is ignored
because the memset overwrites every byte of it. -/
def mpool_params_init (_params : mpool_params) : mpool_params :=
  { zeroed_mpool_params with
    mp_uid := MPOOL_UID_INVALID,
    mp_gid := MPOOL_GID_INVALID,
    mp_mode := MPOOL_MODE_INVALID,
    mp_spare_cap := MPOOL_SPARES_INVALID,
    mp_spare_stg := MPOOL_SPARES_INVALID,
    mp_mclassp := MPOOL_MCLASS_INVALID,
    mp_ra_pages_max := MPOOL_RA_PAGES_INVALID,
    mp_mdc0cap := 0,
    mp_mdcncap := 0,
    mp_mdcnum := 0,
    mp_label := MPOOL_LABEL_INVALID }

/-! ## Theorems -/

/-- C3: a successful Erase discards all records and sets the new generation
to max(current+1, min-gen); in particular the generation strictly increases
even when min-gen is at most the current generation. -/
theorem mpool_mlog_erase_gen_max (m : Mlog) (mingen : Nat) :
    (mpool_mlog_erase m mingen).recs = [] ∧
    (mpool_mlog_erase m mingen).gen = max (m.gen + 1) mingen ∧
    m.gen < (mpool_mlog_erase m mingen).gen := by
  refine ⟨rfl, rfl, ?_⟩
  show m.gen < max (m.gen + 1) mingen
  exact Nat.lt_of_lt_of_le (Nat.lt_succ_self m.gen) (le_max_left (m.gen + 1) mingen)

/-- C2: committing an MDC pair is atomic from the caller's point of view:
when the call reports success both mlogs are committed, when it reports
failure neither is (a failed second commit aborts the first), and in every
case the two mlogs are committed together or not at all. -/
theorem mpool_mdc_commit_atomic (ok1 ok2 : Bool) (p : MdcPairLifecycle)
    (h1 : p.l1 = MlogLifecycle.allocated) (h2 : p.l2 = MlogLifecycle.allocated) :
    ((mpool_mdc_commit ok1 ok2 p).2.l1 = MlogLifecycle.committed ↔
      (mpool_mdc_commit ok1 ok2 p).2.l2 = MlogLifecycle.committed) ∧
    ((mpool_mdc_commit ok1 ok2 p).1 = true →
      (mpool_mdc_commit ok1 ok2 p).2 =
        { l1 := MlogLifecycle.committed, l2 := MlogLifecycle.committed }) ∧
    ((mpool_mdc_commit ok1 ok2 p).1 = false →
      (mpool_mdc_commit ok1 ok2 p).2.l1 ≠ MlogLifecycle.committed ∧
      (mpool_mdc_commit ok1 ok2 p).2.l2 ≠ MlogLifecycle.committed) := by
  obtain ⟨a, b⟩ := p
  cases a <;> cases b <;> cases ok1 <;> cases ok2 <;> first | decide | simp_all

/-- Witness for C2: the second mlog commit fails, the call reports failure,
and neither mlog of the pair ends committed. -/
theorem mpool_mdc_commit_atomic_witness :
    ({ l1 := MlogLifecycle.allocated, l2 := MlogLifecycle.allocated } :
        MdcPairLifecycle).l1 = MlogLifecycle.allocated ∧
    ({ l1 := MlogLifecycle.allocated, l2 := MlogLifecycle.allocated } :
        MdcPairLifecycle).l2 = MlogLifecycle.allocated ∧
    (((mpool_mdc_commit true false
          { l1 := MlogLifecycle.allocated, l2 := MlogLifecycle.allocated }).2.l1 =
        MlogLifecycle.committed ↔
      (mpool_mdc_commit true false
          { l1 := MlogLifecycle.allocated, l2 := MlogLifecycle.allocated }).2.l2 =
        MlogLifecycle.committed) ∧
    ((mpool_mdc_commit true false
          { l1 := MlogLifecycle.allocated, l2 := MlogLifecycle.allocated }).1 = true →
      (mpool_mdc_commit true false
          { l1 := MlogLifecycle.allocated, l2 := MlogLifecycle.allocated }).2 =
        { l1 := MlogLifecycle.committed, l2 := MlogLifecycle.committed }) ∧
    ((mpool_mdc_commit true false
          { l1 := MlogLifecycle.allocated, l2 := MlogLifecycle.allocated }).1 = false →
      (mpool_mdc_commit true false
          { l1 := MlogLifecycle.allocated, l2 := MlogLifecycle.allocated }).2.l1 ≠
        MlogLifecycle.committed ∧
      (mpool_mdc_commit true false
          { l1 := MlogLifecycle.allocated, l2 := MlogLifecycle.allocated }).2.l2 ≠
        MlogLifecycle.committed)) :=
  ⟨rfl, rfl,
    mpool_mdc_commit_atomic true false
      { l1 := MlogLifecycle.allocated, l2 := MlogLifecycle.allocated } rfl rfl⟩

/-- C4: an mblock write is all-or-nothing: either the call succeeds and
every byte of the supplied data is appended at the write offset, or it
returns an error and the mblock descriptor is unchanged. -/
theorem mpool_mblock_write_all_or_nothing (ok : Bool) (mb : Mblock)
    (data : List Nat) :
    ((mpool_mblock_write ok mb data).1 = Except.ok () ∧
      (mpool_mblock_write ok mb data).2.content = mb.content ++ data ∧
      (mpool_mblock_write ok mb data).2.wlen = mb.wlen + data.length) ∨
    (∃ e, (mpool_mblock_write ok mb data).1 = Except.error e ∧
      (mpool_mblock_write ok mb data).2 = mb) := by
  unfold mpool_mblock_write
  split
  · split
    · split
      · split
        · exact Or.inl ⟨rfl, rfl, rfl⟩
        · exact Or.inr ⟨MpErr.io, rfl, rfl⟩
      · exact Or.inr ⟨MpErr.noSpace, rfl, rfl⟩
    · exact Or.inr ⟨MpErr.invalidArg, rfl, rfl⟩
  · exact Or.inr ⟨MpErr.invalidState, rfl, rfl⟩

/-- C5: the mblock round-trip law: for data meeting the write preconditions
(length aligned to the optimal write alignment and within the extent),
Allocate, Write(data), Commit, then Read at offset 0 returns exactly the
data. -/
theorem mpool_mblock_roundtrip (extent align : Nat) (data : List Nat)
    (hal : data.length % align = 0) (hcap : data.length ≤ extent) :
    mpool_mblock_read
        ((mpool_mblock_commit
            ((mpool_mblock_write true (mpool_mblock_alloc extent align) data).2)).2)
        0 data.length
      = Except.ok data := by
  simp [mpool_mblock_alloc, mpool_mblock_write, mpool_mblock_commit,
    mpool_mblock_read, PAGE_SIZE, hal, hcap]

/-- Witness for C5: a two-byte write into a four-byte extent with alignment
one reads back unchanged. -/
theorem mpool_mblock_roundtrip_witness :
    ([7, 8] : List Nat).length % 1 = 0 ∧ ([7, 8] : List Nat).length ≤ 4 ∧
    mpool_mblock_read
        ((mpool_mblock_commit
            ((mpool_mblock_write true (mpool_mblock_alloc 4 1) [7, 8]).2)).2)
        0 ([7, 8] : List Nat).length
      = Except.ok [7, 8] :=
  ⟨by decide, by decide,
    mpool_mblock_roundtrip 4 1 [7, 8] (by decide) (by decide)⟩

/-- C6: a read-next with a buffer shorter than the next record returns
overflow together with the required record length and does not advance the
cursor, so retrying with a buffer of the reported size returns that same
record; this holds for the mlog read and for the MDC read (which skips
compaction markers). -/
theorem read_next_overflow_no_advance
    (rem : List (List Nat)) (mrem : List MdcRec) (r m : List Nat)
    (buflen mbuflen : Nat)
    (hr : rem.head? = some r) (hb : buflen < r.length)
    (hm : firstUserRec mrem = some m) (hmb : mbuflen < m.length) :
    (mpool_mlog_read_data_next rem buflen =
        (ReadResult.overflowRes, r.length, rem) ∧
      (mpool_mlog_read_data_next rem r.length).1 = ReadResult.ok r) ∧
    ((mpool_mdc_read mrem mbuflen).1 = ReadResult.overflowRes ∧
      (mpool_mdc_read mrem mbuflen).2.1 = m.length ∧
      (mpool_mdc_read (mpool_mdc_read mrem mbuflen).2.2 m.length).1 =
        ReadResult.ok m) := by
  have hmlog : mpool_mlog_read_data_next rem buflen =
      (ReadResult.overflowRes, r.length, rem) ∧
      (mpool_mlog_read_data_next rem r.length).1 = ReadResult.ok r := by
    cases rem with
    | nil => simp at hr
    | cons x xs =>
      have hx : x = r := by simpa using hr
      subst hx
      constructor
      · simp only [mpool_mlog_read_data_next]
        rw [if_neg (by omega)]
      · simp only [mpool_mlog_read_data_next]
        rw [if_pos le_rfl]
  have hmdc : ∀ l : List MdcRec, firstUserRec l = some m →
      (mpool_mdc_read l mbuflen).1 = ReadResult.overflowRes ∧
      (mpool_mdc_read l mbuflen).2.1 = m.length ∧
      (mpool_mdc_read (mpool_mdc_read l mbuflen).2.2 m.length).1 =
        ReadResult.ok m := by
    intro l
    induction l with
    | nil => intro h; simp [firstUserRec] at h
    | cons x xs ih =>
      intro h
      cases x with
      | user d =>
        have hd : d = m := by simpa [firstUserRec] using h
        subst hd
        have key : mpool_mdc_read (MdcRec.user d :: xs) mbuflen =
            (ReadResult.overflowRes, d.length, MdcRec.user d :: xs) := by
          simp only [mpool_mdc_read]
          rw [if_neg (by omega)]
        have key2 : (mpool_mdc_read (MdcRec.user d :: xs) d.length).1 =
            ReadResult.ok d := by
          simp only [mpool_mdc_read]
          rw [if_pos le_rfl]
        exact ⟨by rw [key], by rw [key], by rw [key]; exact key2⟩
      | cstartMark =>
        have h2 : firstUserRec xs = some m := by simpa [firstUserRec] using h
        simpa [mpool_mdc_read] using ih h2
      | cendMark =>
        have h2 : firstUserRec xs = some m := by simpa [firstUserRec] using h
        simpa [mpool_mdc_read] using ih h2
  exact ⟨hmlog, hmdc mrem hm⟩

/-- Witness for C6: a one-byte buffer against a two-byte mlog record and a
zero-byte buffer against the first user record of an MDC stream behind a
compaction-start marker. -/
theorem read_next_overflow_no_advance_witness :
    ([[1, 2]] : List (List Nat)).head? = some [1, 2] ∧
    1 < ([1, 2] : List Nat).length ∧
    firstUserRec [MdcRec.cstartMark, MdcRec.user [3, 4]] = some [3, 4] ∧
    0 < ([3, 4] : List Nat).length ∧
    ((mpool_mlog_read_data_next [[1, 2]] 1 =
        (ReadResult.overflowRes, ([1, 2] : List Nat).length, [[1, 2]]) ∧
      (mpool_mlog_read_data_next [[1, 2]] ([1, 2] : List Nat).length).1 =
        ReadResult.ok [1, 2]) ∧
    ((mpool_mdc_read [MdcRec.cstartMark, MdcRec.user [3, 4]] 0).1 =
        ReadResult.overflowRes ∧
      (mpool_mdc_read [MdcRec.cstartMark, MdcRec.user [3, 4]] 0).2.1 =
        ([3, 4] : List Nat).length ∧
      (mpool_mdc_read
          (mpool_mdc_read [MdcRec.cstartMark, MdcRec.user [3, 4]] 0).2.2
          ([3, 4] : List Nat).length).1 = ReadResult.ok [3, 4])) :=
  ⟨by decide, by decide, by decide, by decide,
    read_next_overflow_no_advance [[1, 2]] [MdcRec.cstartMark, MdcRec.user [3, 4]]
      [1, 2] [3, 4] 1 0 (by decide) (by decide) (by decide) (by decide)⟩

/-- C7: an exclusively opened pool makes every further open fail busy, and a
pool with a live shared open makes an exclusive open fail busy, the state
being unchanged in both cases. -/
theorem mpool_open_exclusive_shared_busy (n : Nat) (b excl : Bool) :
    mpool_open excl { sharedCount := n, exclOpen := true } =
      (Except.error MpErr.busy, { sharedCount := n, exclOpen := true }) ∧
    mpool_open true { sharedCount := n + 1, exclOpen := b } =
      (Except.error MpErr.busy, { sharedCount := n + 1, exclOpen := b }) := by
  constructor
  · simp [mpool_open]
  · cases b with
    | true => simp [mpool_open]
    | false => simp [mpool_open]

/-- C8: zero encodes success; every error value the library packs from a
non-zero backend errno is non-zero, fits in 64 bits, and the backend errno,
source line and source-file tag are recoverable by the extractors, on which
the human-readable renderings with source-origin tagging are built. -/
theorem merr_zero_success_errno_recoverable (file line errno : Nat)
    (he : errno % 2 ^ 16 ≠ 0) :
    mpool_errno 0 = 0 ∧
    merr_pack file line errno ≠ 0 ∧
    merr_pack file line errno < 2 ^ 64 ∧
    mpool_errno (merr_pack file line errno) = errno % 2 ^ 16 ∧
    merr_line (merr_pack file line errno) = line % 2 ^ 16 ∧
    merr_file (merr_pack file line errno) = file % 2 ^ 32 ∧
    mpool_strerror (merr_pack file line errno) =
      "errno " ++ toString (errno % 2 ^ 16) ∧
    mpool_strinfo (merr_pack file line errno) =
      "src " ++ toString (file % 2 ^ 32) ++ " line " ++ toString (line % 2 ^ 16)
        ++ " errno " ++ toString (errno % 2 ^ 16) := by
  have hpe : mpool_errno (merr_pack file line errno) = errno % 2 ^ 16 := by
    unfold mpool_errno merr_pack
    omega
  have hpl : merr_line (merr_pack file line errno) = line % 2 ^ 16 := by
    unfold merr_line merr_pack
    omega
  have hpf : merr_file (merr_pack file line errno) = file % 2 ^ 32 := by
    unfold merr_file merr_pack
    omega
  refine ⟨rfl, ?_, ?_, hpe, hpl, hpf, ?_, ?_⟩
  · unfold merr_pack
    omega
  · unfold merr_pack
    omega
  · unfold mpool_strerror
    rw [hpe]
  · unfold mpool_strinfo
    rw [hpe, hpl, hpf]

/-- Witness for C8: packing errno 5 at file tag 1, line 2. -/
theorem merr_zero_success_errno_recoverable_witness :
    (5 : Nat) % 2 ^ 16 ≠ 0 ∧
    (mpool_errno 0 = 0 ∧
    merr_pack 1 2 5 ≠ 0 ∧
    merr_pack 1 2 5 < 2 ^ 64 ∧
    mpool_errno (merr_pack 1 2 5) = 5 % 2 ^ 16 ∧
    merr_line (merr_pack 1 2 5) = 2 % 2 ^ 16 ∧
    merr_file (merr_pack 1 2 5) = 1 % 2 ^ 32 ∧
    mpool_strerror (merr_pack 1 2 5) = "errno " ++ toString ((5 : Nat) % 2 ^ 16) ∧
    mpool_strinfo (merr_pack 1 2 5) =
      "src " ++ toString ((1 : Nat) % 2 ^ 32) ++ " line "
        ++ toString ((2 : Nat) % 2 ^ 16) ++ " errno "
        ++ toString ((5 : Nat) % 2 ^ 16)) :=
  ⟨by decide, merr_zero_success_errno_recoverable 1 2 5 (by decide)⟩

/-- C9: after mpool_params_init every configuration value recognized at init
equals its distinguished invalid sentinel meaning leave default; the
sentinel of the MDC-0 capacity, the per-MDC capacity and the MDC count is
zero. -/
theorem mpool_params_init_sentinels (p : mpool_params) :
    (mpool_params_init p).mp_mclassp = MPOOL_MCLASS_INVALID ∧
    (mpool_params_init p).mp_uid = MPOOL_UID_INVALID ∧
    (mpool_params_init p).mp_gid = MPOOL_GID_INVALID ∧
    (mpool_params_init p).mp_mode = MPOOL_MODE_INVALID ∧
    (mpool_params_init p).mp_spare_cap = MPOOL_SPARES_INVALID ∧
    (mpool_params_init p).mp_spare_stg = MPOOL_SPARES_INVALID ∧
    (mpool_params_init p).mp_ra_pages_max = MPOOL_RA_PAGES_INVALID ∧
    (mpool_params_init p).mp_mdc0cap = 0 ∧
    (mpool_params_init p).mp_mdcncap = 0 ∧
    (mpool_params_init p).mp_mdcnum = 0 ∧
    (mpool_params_init p).mp_label = MPOOL_LABEL_INVALID :=
  ⟨rfl, rfl, rfl, rfl, rfl, rfl, rfl, rfl, rfl, rfl, rfl⟩

/-- C10: mpool_params_init zero-fills the whole structure before assigning
sentinels, so every field not assigned a named sentinel equals zero, and
the function is deterministic: it produces the same structure contents
whatever it is handed. -/
theorem mpool_params_init_zero_fill_deterministic (p q : mpool_params) :
    mpool_params_init p = mpool_params_init q ∧
    (mpool_params_init p).mp_mdc0cap = 0 ∧
    (mpool_params_init p).mp_mdcncap = 0 ∧
    (mpool_params_init p).mp_mdcnum = 0 ∧
    (mpool_params_init p).mp_poolid = 0 ∧
    (mpool_params_init p).mp_name = "" ∧
    (mpool_params_init p).mp_stat = 0 ∧
    (mpool_params_init p).mp_vma_size_max = 0 ∧
    (mpool_params_init p).mp_rsvd = 0 :=
  ⟨rfl, rfl, rfl, rfl, rfl, rfl, rfl, rfl, rfl⟩

/-! ## C1: crash during compaction -/

/-- A list of user records alone never forms a terminated compaction body. -/
theorem compactedBody_map_user (xs : List (List Nat)) :
    compactedBody (xs.map MdcRec.user) = false := by
  induction xs with
  | nil => rfl
  | cons x xs ih => simpa [compactedBody] using ih

/-- User records terminated by one compaction-end marker form a terminated
compaction body. -/
theorem compactedBody_map_user_cend (xs : List (List Nat)) :
    compactedBody (xs.map MdcRec.user ++ [MdcRec.cendMark]) = true := by
  induction xs with
  | nil => rfl
  | cons x xs ih => simpa [compactedBody] using ih

/-- The stream pass collects consecutive user records into the
accumulator. -/
theorem mdcStreamGo_map_user (acc xs : List (List Nat)) (rest : List MdcRec) :
    mdcStreamGo acc (xs.map MdcRec.user ++ rest) = mdcStreamGo (acc ++ xs) rest := by
  induction xs generalizing acc with
  | nil => simp
  | cons x xs ih =>
    rw [List.map_cons, List.cons_append]
    show mdcStreamGo (acc ++ [x]) (xs.map MdcRec.user ++ rest) = _
    rw [ih]
    congr 1
    simp

/-- The stream of a fully compacted mlog is exactly its rewritten user
records. -/
theorem mdcStream_compacted (xs : List (List Nat)) :
    mdcStream
      (MdcRec.cstartMark :: (xs.map MdcRec.user ++ [MdcRec.cendMark])) = xs := by
  show mdcStreamGo [] (xs.map MdcRec.user ++ [MdcRec.cendMark]) = xs
  rw [mdcStreamGo_map_user]
  rfl

/-- Recovery with the higher-generation mlog in the second slot: the
candidate is the higher-generation mlog; if its scan is valid it is
authoritative, else the lower-generation mlog is. -/
theorem mdc_recover_snd_higher (lo hi : Mlog) (h : lo.gen < hi.gen) :
    mdc_recover { m1 := lo, m2 := hi } =
      if validCandidate hi.recs false = true then OpenResult.ok (mdcStream hi.recs)
      else OpenResult.ok (mdcStream lo.recs) := by
  unfold mdc_recover
  dsimp only
  rw [if_neg (by omega), if_pos h]

/-- Recovery with the higher-generation mlog in the first slot. -/
theorem mdc_recover_fst_higher (lo hi : Mlog) (h : lo.gen < hi.gen) :
    mdc_recover { m1 := hi, m2 := lo } =
      if validCandidate hi.recs false = true then OpenResult.ok (mdcStream hi.recs)
      else OpenResult.ok (mdcStream lo.recs) := by
  unfold mdc_recover
  dsimp only
  rw [if_pos h]

/-- Recovery on a generation tie against an empty standby: the valid mlog's
stream is delivered (the empty stream when it too is empty). -/
theorem mdc_recover_tie_standby_empty (A S : Mlog) (hg : S.gen = A.gen)
    (hS : S.recs = []) (hA : validCandidate A.recs true = true) :
    mdc_recover { m1 := A, m2 := S } = OpenResult.ok (mdcStream A.recs) ∧
    mdc_recover { m1 := S, m2 := A } = OpenResult.ok (mdcStream A.recs) := by
  have hnil : validCandidate ([] : List MdcRec) true = true := rfl
  constructor
  · unfold mdc_recover
    dsimp only
    rw [if_neg (by omega), if_neg (by omega), hS]
    cases hAr : A.recs with
    | nil => simp [hnil, mdcStream, mdcStreamGo]
    | cons a t =>
      rw [hAr] at hA
      simp [hA, hnil]
  · unfold mdc_recover
    dsimp only
    rw [if_neg (by omega), if_neg (by omega), hS]
    cases hAr : A.recs with
    | nil => simp [hnil, mdcStream, mdcStreamGo]
    | cons a t =>
      rw [hAr] at hA
      simp [hA, hnil]

/-- C1 counterexample: the claim as stated is false.  Take an MDC whose
authoritative mlog holds one compacted record at generation 2 with an empty
standby at generation 1, and compact it to one new record.  The crash state
right after Cstart's erase of the standby (generation 3, no records yet)
recovers to the empty stream, which is neither the pre-compaction stream
nor the post-compaction stream. -/
theorem mdc_crash_recovery_claim_refuted :
    ¬ (∀ (A S : Mlog) (newRecs : List (List Nat)) (p : MDCPair),
        S.gen < A.gen →
        validCandidate A.recs false = true →
        p ∈ mdcCrashStates A S newRecs →
        mdc_recover p = OpenResult.ok (mdcStream A.recs) ∨
        mdc_recover p = OpenResult.ok newRecs) := by
  intro h
  have hc := h
    { recs := [MdcRec.cstartMark, MdcRec.user [1], MdcRec.cendMark], gen := 2 }
    { recs := [], gen := 1 } [[2]]
    { m1 := { recs := [MdcRec.cstartMark, MdcRec.user [1], MdcRec.cendMark],
              gen := 2 },
      m2 := { recs := [], gen := 3 } }
    (by decide) (by decide) (by decide)
  rcases hc with hc | hc <;> exact absurd hc (by decide)

/-- C1 amended: for any consistent MDC (the old active is scan-valid and
outranks the standby in generation, or ties it with an empty standby) and
any crash point between the Cstart call and the completion of Cend, the
next open recovers either exactly the pre-compaction record stream or
exactly the post-compaction record stream, except that a crash falling
between Cstart's erase of the standby and its compaction-start-marker
write — where the freshly erased, higher-generation mlog is empty and
scans valid — recovers the empty stream; a mixture of records from both
streams is never returned. -/
theorem mdc_crash_recovery_pre_or_post (A S : Mlog) (newRecs : List (List Nat))
    (p : MDCPair)
    (hgen : S.gen < A.gen ∨ (S.gen = A.gen ∧ S.recs = []))
    (hval : validCandidate A.recs (S.gen == A.gen) = true)
    (hp : p ∈ mdcCrashStates A S newRecs) :
    mdc_recover p = OpenResult.ok (mdcStream A.recs) ∨
    mdc_recover p = OpenResult.ok newRecs ∨
    (mdc_recover p = OpenResult.ok [] ∧
      (p = { m1 := A, m2 := mdcCstartErased A S } ∨
        p = { m1 := mdcCstartErased A S, m2 := A })) := by
  have hgenE : A.gen < (mdcCstartErased A S).gen := by
    show A.gen < max (S.gen + 1) (A.gen + 1)
    exact Nat.lt_of_lt_of_le (Nat.lt_succ_self _) (le_max_right _ _)
  rcases List.mem_flatMap.mp hp with ⟨y, hy, hpy⟩
  simp only [List.mem_cons, List.mem_singleton, List.not_mem_nil, or_false] at hpy
  simp only [mdcCrashLogs, List.mem_cons, List.mem_append, List.mem_map,
    List.mem_range, List.mem_singleton, List.not_mem_nil, or_false] at hy
  rcases hy with hy | hy | ⟨k, hklt, hk⟩ | hy
  · -- crash before any durable effect of Cstart: the pair is unchanged
    rw [hy] at hpy
    rcases hgen with hlt | ⟨heq, hSr⟩
    · have hbeq : (S.gen == A.gen) = false :=
        beq_eq_false_iff_ne.mpr (Nat.ne_of_lt hlt)
      rw [hbeq] at hval
      rcases hpy with hpy | hpy <;> subst hpy
      · left
        rw [mdc_recover_fst_higher S A hlt, if_pos hval]
      · left
        rw [mdc_recover_snd_higher S A hlt, if_pos hval]
    · rw [beq_iff_eq.mpr heq] at hval
      have htie := mdc_recover_tie_standby_empty A S heq hSr hval
      rcases hpy with hpy | hpy <;> subst hpy
      · exact Or.inl htie.1
      · exact Or.inl htie.2
  · -- crash between the standby erase and the start-marker write
    subst hy
    have hE : (mdcCstartErased A S).recs = [] := rfl
    rcases hpy with hpy | hpy <;> subst hpy
    · refine Or.inr (Or.inr ⟨?_, Or.inl rfl⟩)
      rw [mdc_recover_snd_higher A (mdcCstartErased A S) hgenE, hE]
      rfl
    · refine Or.inr (Or.inr ⟨?_, Or.inr rfl⟩)
      rw [mdc_recover_fst_higher A (mdcCstartErased A S) hgenE, hE]
      rfl
  · -- crash after the start marker and k rewritten records, before Cend
    subst hk
    have hgenM : A.gen < (mdcMidLog A newRecs k).gen := Nat.lt_succ_self _
    have hinv : validCandidate (mdcMidLog A newRecs k).recs false = false := by
      show compactedBody ((newRecs.take k).map MdcRec.user) = false
      exact compactedBody_map_user _
    rcases hpy with hpy | hpy <;> subst hpy
    · left
      rw [mdc_recover_snd_higher A (mdcMidLog A newRecs k) hgenM, hinv]
      rfl
    · left
      rw [mdc_recover_fst_higher A (mdcMidLog A newRecs k) hgenM, hinv]
      rfl
  · -- the compaction-end marker is durable: Cend has completed
    subst hy
    have hgenF : A.gen < (mdcFinalLog A newRecs).gen := Nat.lt_succ_self _
    have hok : validCandidate (mdcFinalLog A newRecs).recs false = true := by
      show compactedBody (newRecs.map MdcRec.user ++ [MdcRec.cendMark]) = true
      exact compactedBody_map_user_cend _
    rcases hpy with hpy | hpy <;> subst hpy
    · right; left
      rw [mdc_recover_snd_higher A (mdcFinalLog A newRecs) hgenF, if_pos hok]
      show OpenResult.ok (mdcStream (mdcFinalLog A newRecs).recs) = _
      rw [show (mdcFinalLog A newRecs).recs =
        MdcRec.cstartMark :: (newRecs.map MdcRec.user ++ [MdcRec.cendMark]) from rfl]
      rw [mdcStream_compacted]
    · right; left
      rw [mdc_recover_fst_higher A (mdcFinalLog A newRecs) hgenF, if_pos hok]
      show OpenResult.ok (mdcStream (mdcFinalLog A newRecs).recs) = _
      rw [show (mdcFinalLog A newRecs).recs =
        MdcRec.cstartMark :: (newRecs.map MdcRec.user ++ [MdcRec.cendMark]) from rfl]
      rw [mdcStream_compacted]

/-- Witness for the amended C1: a concrete consistent MDC, a one-record
compaction, and the crash state that loses neither stream (nothing yet
durable): recovery returns the pre-compaction stream. -/
theorem mdc_crash_recovery_pre_or_post_witness :
    ((1 : Nat) < 2 ∨ ((1 : Nat) = 2 ∧ ([] : List MdcRec) = [])) ∧
    validCandidate [MdcRec.cstartMark, MdcRec.user [1], MdcRec.cendMark]
      ((1 : Nat) == 2) = true ∧
    ({ m1 := { recs := [MdcRec.cstartMark, MdcRec.user [1], MdcRec.cendMark],
               gen := 2 },
       m2 := { recs := [], gen := 1 } } : MDCPair) ∈
      mdcCrashStates
        { recs := [MdcRec.cstartMark, MdcRec.user [1], MdcRec.cendMark], gen := 2 }
        { recs := [], gen := 1 } [[2]] ∧
    (mdc_recover
        { m1 := { recs := [MdcRec.cstartMark, MdcRec.user [1], MdcRec.cendMark],
                  gen := 2 },
          m2 := { recs := [], gen := 1 } } =
        OpenResult.ok
          (mdcStream [MdcRec.cstartMark, MdcRec.user [1], MdcRec.cendMark]) ∨
      mdc_recover
        { m1 := { recs := [MdcRec.cstartMark, MdcRec.user [1], MdcRec.cendMark],
                  gen := 2 },
          m2 := { recs := [], gen := 1 } } = OpenResult.ok [[2]] ∨
      (mdc_recover
          { m1 := { recs := [MdcRec.cstartMark, MdcRec.user [1], MdcRec.cendMark],
                    gen := 2 },
            m2 := { recs := [], gen := 1 } } = OpenResult.ok [] ∧
        (({ m1 := { recs := [MdcRec.cstartMark, MdcRec.user [1], MdcRec.cendMark],
                    gen := 2 },
            m2 := { recs := [], gen := 1 } } : MDCPair) =
            { m1 := { recs := [MdcRec.cstartMark, MdcRec.user [1],
                               MdcRec.cendMark], gen := 2 },
              m2 := mdcCstartErased
                { recs := [MdcRec.cstartMark, MdcRec.user [1], MdcRec.cendMark],
                  gen := 2 } { recs := [], gen := 1 } } ∨
          ({ m1 := { recs := [MdcRec.cstartMark, MdcRec.user [1], MdcRec.cendMark],
                     gen := 2 },
             m2 := { recs := [], gen := 1 } } : MDCPair) =
            { m1 := mdcCstartErased
                { recs := [MdcRec.cstartMark, MdcRec.user [1], MdcRec.cendMark],
                  gen := 2 } { recs := [], gen := 1 },
              m2 := { recs := [MdcRec.cstartMark, MdcRec.user [1],
                               MdcRec.cendMark], gen := 2 } }))) :=
  ⟨Or.inl (by decide), by decide, by decide,
    mdc_crash_recovery_pre_or_post
      { recs := [MdcRec.cstartMark, MdcRec.user [1], MdcRec.cendMark], gen := 2 }
      { recs := [], gen := 1 } [[2]]
      { m1 := { recs := [MdcRec.cstartMark, MdcRec.user [1], MdcRec.cendMark],
                gen := 2 },
        m2 := { recs := [], gen := 1 } }
      (Or.inl (by decide)) (by decide) (by decide)⟩

end Mpool
